import Mathlib

/-!
Verification of the AutoScout24 scraping pipeline (link discovery engine,
record normalizer, detail fetcher, orchestrator) against its specification.
The Python sources are shallowly embedded: pandas/regex string operations
become functions on Lean strings and character lists, machine integers
become Nat, fallible operations return Option, and pandas NaN cells are
modeled as Option.none.
-/

namespace AutoScout

/-! ## Digit and numeral utilities

These model the Python/pandas primitives used by the cleaning stage:
regex digit stripping, pd.to_numeric, and the decimal rendering of
str(int(x)).
-/

/-- Numeric value of an ASCII digit character (c.toNat - 48). -/
def charVal (c : Char) : Nat := c.toNat - 48

/-- The decimal digit character for a value 0..9. -/
def digitChar : Nat → Char
  | 0 => '0' | 1 => '1' | 2 => '2' | 3 => '3' | 4 => '4'
  | 5 => '5' | 6 => '6' | 7 => '7' | 8 => '8' | 9 => '9'
  | _ => '*'

/-- Fuel-indexed helper for revDigits; the fuel only serves structural
recursion and never runs out when it exceeds the argument. -/
def revDigitsAux : Nat → Nat → List Char
  | 0, _ => []
  | fuel + 1, n => digitChar (n % 10) :: (if n < 10 then [] else revDigitsAux fuel (n / 10))

/-- Little-endian decimal digits of a natural number (least significant first). -/
def revDigits (n : Nat) : List Char := revDigitsAux (n + 1) n

theorem revDigitsAux_irrel : ∀ f g n : Nat, n < f → n < g →
    revDigitsAux f n = revDigitsAux g n := by
  intro f
  induction f with
  | zero => intro g n h; omega
  | succ f ih =>
    intro g n hf hg
    match g with
    | 0 => omega
    | g + 1 =>
      simp only [revDigitsAux]
      by_cases h : n < 10
      · simp [h]
      · simp only [h, if_neg, not_false_iff]
        have hdiv : n / 10 < n := Nat.div_lt_self (by omega) (by omega)
        rw [ih g (n / 10) (by omega) (by omega)]

/-- Decimal rendering of a natural number, modeling the Python str(int(x))
conversion: most significant digit first. -/
def natStr (n : Nat) : List Char := (revDigits n).reverse

/-- Numeric value of a most-significant-first digit string
(the int(...) parse used by pd.to_numeric on an all-digit string). -/
def parseDigitList (cs : List Char) : Nat :=
  cs.foldl (fun a c => 10 * a + charVal c) 0

/-- Models the regex substitution that deletes every non-digit character
(the pattern applied to the raw price and mileage strings in
data_cleaner.py lines 71 and 122). -/
def stripNonDigits (s : String) : String :=
  String.mk (s.toList.filter fun c => c.isDigit)

/-- Models pd.to_numeric with coercing errors applied to a string cell:
an all-digit nonempty string parses to its value, anything else becomes NaN
(here: none). -/
def toNumeric (s : String) : Option Nat :=
  if s.toList ≠ [] ∧ s.toList.all (fun c => c.isDigit) then
    some (parseDigitList s.toList)
  else none

/-! ## Price cleaning (data_cleaner.py lines 66-93) -/

/-- The clean_price correction from data_cleaner.py lines 76-84: render the
numeric price as str(int(x)); a trailing "15" drops the last two characters,
otherwise a trailing "5" drops the last character; an emptied string becomes
NA (none). -/
def clean_price (n : Nat) : Option Nat :=
  let x := natStr n
  let x' :=
    if (['1', '5'] : List Char).isSuffixOf x then x.take (x.length - 2)
    else if (['5'] : List Char).isSuffixOf x then x.take (x.length - 1)
    else x
  if x' = [] then none else some (parseDigitList x')

/-- The full price column transform of data_cleaner.py lines 68-86: strip
non-digits, numeric-parse, then apply the clean_price correction. -/
def priceVal (s : String) : Option Nat :=
  (toNumeric (stripNonDigits s)).bind clean_price

/-- The price row filter of data_cleaner.py line 91: keep iff
5000 <= price <= 150000 (NaN prices are dropped). -/
def priceKeep (p : Option Nat) : Bool :=
  match p with
  | some v => 5000 ≤ v ∧ v ≤ 150000
  | none => false

/-! ### Arithmetic characterization of the digit-string operations -/

theorem revDigits_eq (n : Nat) :
    revDigits n = digitChar (n % 10) :: (if n < 10 then [] else revDigits (n / 10)) := by
  rw [revDigits, revDigitsAux]
  by_cases h : n < 10
  · simp [h]
  · simp only [h, if_neg, not_false_iff]
    rw [revDigits, revDigitsAux_irrel n (n / 10 + 1) (n / 10)
      (Nat.div_lt_self (by omega) (by omega)) (by omega)]

theorem revDigits_ne_nil (n : Nat) : revDigits n ≠ [] := by
  rw [revDigits_eq]; simp

theorem isPrefixOf_cons (c : Char) (cs : List Char) (a : Char) (l : List Char) :
    ((c :: cs).isPrefixOf (a :: l)) = ((c == a) && cs.isPrefixOf l) := by
  simp [List.isPrefixOf]

theorem isPrefixOf_nil (l : List Char) : (([] : List Char).isPrefixOf l) = true := by
  cases l <;> rfl

theorem natStr_ne_nil (n : Nat) : natStr n ≠ [] := by
  intro h
  exact revDigits_ne_nil n (by simpa [natStr] using congrArg List.reverse h)

theorem charVal_digitChar {d : Nat} (h : d < 10) : charVal (digitChar d) = d := by
  interval_cases d <;> decide

theorem parseDigitList_append_one (cs : List Char) (c : Char) :
    parseDigitList (cs ++ [c]) = 10 * parseDigitList cs + charVal c := by
  simp [parseDigitList, List.foldl_append]

theorem parse_natStr (n : Nat) : parseDigitList (natStr n) = n := by
  induction n using Nat.strong_induction_on with
  | _ n ih =>
    rw [natStr, revDigits_eq]
    have hmod : n % 10 < 10 := by omega
    by_cases h : n < 10
    · simp only [h, if_pos]
      have : parseDigitList [digitChar (n % 10)] = charVal (digitChar (n % 10)) := by
        simp [parseDigitList]
      simp only [List.reverse_cons, List.reverse_nil, List.nil_append, this]
      rw [charVal_digitChar hmod]
      omega
    · simp only [h, if_neg, not_false_iff, List.reverse_cons]
      rw [parseDigitList_append_one]
      have hdiv : n / 10 < n := Nat.div_lt_self (by omega) (by omega)
      have := ih (n / 10) hdiv
      rw [natStr] at this
      rw [this, charVal_digitChar hmod]
      omega

theorem digitChar_eq_five {d : Nat} (h : d < 10) : (digitChar d = '5') ↔ d = 5 := by
  interval_cases d <;> simp [digitChar]

theorem digitChar_eq_one {d : Nat} (h : d < 10) : (digitChar d = '1') ↔ d = 1 := by
  interval_cases d <;> simp [digitChar]

theorem suffix5_iff (n : Nat) :
    (['5'] : List Char).isSuffixOf (natStr n) = decide (n % 10 = 5) := by
  rw [List.isSuffixOf, natStr, List.reverse_reverse, revDigits_eq]
  have h10 : n % 10 < 10 := by omega
  rw [show (['5'] : List Char).reverse = ['5'] from rfl, isPrefixOf_cons, isPrefixOf_nil,
    Bool.and_true]
  rw [Bool.eq_iff_iff]
  simp only [beq_iff_eq, decide_eq_true_eq]
  rw [eq_comm, digitChar_eq_five h10]

theorem suffix15_iff (n : Nat) :
    (['1', '5'] : List Char).isSuffixOf (natStr n) = decide (10 ≤ n ∧ n % 100 = 15) := by
  rw [List.isSuffixOf, natStr, List.reverse_reverse, revDigits_eq]
  rw [show (['1', '5'] : List Char).reverse = ['5', '1'] from rfl]
  have h10 : n % 10 < 10 := by omega
  by_cases hn : n < 10
  · simp only [hn, if_pos]
    rw [isPrefixOf_cons]
    have hnil : ((['1'] : List Char).isPrefixOf []) = false := rfl
    have : ¬ (10 ≤ n ∧ n % 100 = 15) := by omega
    simp [hnil, this]
  · simp only [hn, if_neg, not_false_iff]
    rw [revDigits_eq (n / 10)]
    have hq : n / 10 % 10 < 10 := by omega
    rw [isPrefixOf_cons, isPrefixOf_cons, isPrefixOf_nil, Bool.and_true]
    rw [Bool.eq_iff_iff]
    simp only [Bool.and_eq_true, beq_iff_eq, decide_eq_true_eq]
    constructor
    · rintro ⟨h5, h1⟩
      have e5 : n % 10 = 5 := (digitChar_eq_five h10).mp h5.symm
      have e1 : n / 10 % 10 = 1 := (digitChar_eq_one hq).mp h1.symm
      omega
    · rintro ⟨hge, hmod⟩
      have e5 : n % 10 = 5 := by omega
      have e1 : n / 10 % 10 = 1 := by omega
      exact ⟨by rw [e5]; rfl, by rw [e1]; rfl⟩

theorem natStr_take_sub_one {n : Nat} (h : 10 ≤ n) :
    (natStr n).take ((natStr n).length - 1) = natStr (n / 10) := by
  have hn : ¬ n < 10 := by omega
  conv_lhs => rw [natStr, revDigits_eq]
  simp only [hn, if_neg, not_false_iff, List.reverse_cons]
  rw [List.length_append]
  simp only [List.length_reverse, List.length_cons, List.length_nil]
  rw [show (revDigits (n / 10)).length + 1 - 1 = (revDigits (n / 10)).reverse.length by
    rw [List.length_reverse]; omega]
  rw [List.take_left]
  rfl

theorem natStr_take_sub_two {n : Nat} (h : 100 ≤ n) :
    (natStr n).take ((natStr n).length - 2) = natStr (n / 100) := by
  have h1 : ¬ n < 10 := by omega
  have h2 : ¬ n / 10 < 10 := by omega
  conv_lhs => rw [natStr, revDigits_eq, revDigits_eq (n / 10)]
  simp only [h1, h2, if_neg, not_false_iff, List.reverse_cons]
  rw [List.append_assoc]
  rw [List.length_append, List.length_append]
  simp only [List.length_reverse, List.length_cons, List.length_nil]
  rw [show (revDigits (n / 10 / 10)).length + 1 + 1 - 2
      = (revDigits (n / 10 / 10)).reverse.length by rw [List.length_reverse]; omega]
  rw [List.take_left]
  rw [Nat.div_div_eq_div_mul]
  rfl

theorem natStr_take_two_lt {n : Nat} (h1 : 10 ≤ n) (h2 : n < 100) :
    (natStr n).take ((natStr n).length - 2) = [] := by
  have ha : ¬ n < 10 := by omega
  have hb : n / 10 < 10 := by omega
  conv_lhs => rw [natStr, revDigits_eq, revDigits_eq (n / 10)]
  simp only [ha, hb, if_neg, if_pos, not_false_iff]
  simp

/-- Arithmetic form of the clean_price correction: ending in "15" divides by
100 (NA when that leaves nothing), otherwise ending in "5" divides by 10
(NA when that leaves nothing), otherwise the value is unchanged. -/
theorem clean_price_eq (n : Nat) :
    clean_price n =
      if n % 100 = 15 ∧ 10 ≤ n then (if n < 100 then none else some (n / 100))
      else if n % 10 = 5 then (if n < 10 then none else some (n / 10))
      else some n := by
  rw [clean_price]
  by_cases h15 : n % 100 = 15 ∧ 10 ≤ n
  · have hs : (['1', '5'] : List Char).isSuffixOf (natStr n) = true := by
      rw [suffix15_iff]; simp [h15.1, h15.2]
    simp only [hs, if_pos, if_true]
    by_cases hlt : n < 100
    · have h10 : 10 ≤ n := h15.2
      rw [natStr_take_two_lt h10 hlt]
      simp [h15, hlt]
    · rw [natStr_take_sub_two (by omega)]
      have : natStr (n / 100) ≠ [] := natStr_ne_nil _
      simp [h15, hlt, this, parse_natStr]
  · have hs : (['1', '5'] : List Char).isSuffixOf (natStr n) = false := by
      rw [suffix15_iff]
      simp only [decide_eq_false_iff_not]
      omega
    simp only [hs, Bool.false_eq_true, if_false]
    by_cases h5 : n % 10 = 5
    · have hs5 : (['5'] : List Char).isSuffixOf (natStr n) = true := by
        rw [suffix5_iff]; simp [h5]
      simp only [hs5, if_true]
      by_cases hlt : n < 10
      · have hn5 : n = 5 := by omega
        subst hn5
        decide
      · rw [natStr_take_sub_one (by omega)]
        have : natStr (n / 10) ≠ [] := natStr_ne_nil _
        simp [h15, h5, hlt, this, parse_natStr]
    · have hs5 : (['5'] : List Char).isSuffixOf (natStr n) = false := by
        rw [suffix5_iff]; simp [h5]
      simp only [hs5, Bool.false_eq_true, if_false]
      have : natStr n ≠ [] := natStr_ne_nil _
      simp [h15, h5, this, parse_natStr]

/-- C5: the price transform keeps only digits and parses numerically, then a
value whose decimal rendering ends in "15" loses its last two digits, else a
value ending in "5" loses its last digit; "2999915" becomes 29999 and passes
the price range filter, "45" becomes 4 and is rejected by it. -/
theorem price_correction_determinism :
    (∀ s n, toNumeric (stripNonDigits s) = some n → priceVal s = clean_price n)
    ∧ (∀ n, clean_price n =
        if n % 100 = 15 then (if n < 100 then none else some (n / 100))
        else if n % 10 = 5 then (if n < 10 then none else some (n / 10))
        else some n)
    ∧ priceVal "2999915" = some 29999
    ∧ priceKeep (priceVal "2999915") = true
    ∧ priceVal "45" = some 4
    ∧ priceKeep (priceVal "45") = false := by
  refine ⟨?_, ?_, by decide, by decide, by decide, by decide⟩
  · intro s n h
    rw [priceVal, h]; rfl
  · intro n
    rw [clean_price_eq]
    have h15 : n % 100 = 15 → 10 ≤ n := by omega
    by_cases h : n % 100 = 15
    · simp [h, h15 h]
    · simp [h]

/-- Witness for the hypotheses of price_correction_determinism at the
concrete input "2999915". -/
theorem price_correction_determinism_witness :
    toNumeric (stripNonDigits "2999915") = some 2999915
    ∧ priceVal "2999915" = clean_price 2999915 :=
  ⟨by decide, price_correction_determinism.1 "2999915" 2999915 (by decide)⟩

/-! ## Remaining column transforms of the normalizer (data_cleaner.py) -/

/-- ASCII lowercasing, modeling the Python str.lower / pandas .str.lower
calls on the ASCII labels this dataset carries. -/
def pyLower (s : String) : String := String.mk (s.toList.map Char.toLower)

/-- Fuel-indexed substring replacement: replaces every non-overlapping
occurrence of the nonempty pattern (p :: ps) left to right, as Python
str.replace and pandas .str.replace do. -/
def replaceFromAux (p : Char) (ps rep : List Char) : Nat → List Char → List Char
  | 0, l => l
  | _ + 1, [] => []
  | fuel + 1, c :: rest =>
    if (p :: ps).isPrefixOf (c :: rest) then
      rep ++ replaceFromAux p ps rep fuel (rest.drop ps.length)
    else c :: replaceFromAux p ps rep fuel rest

/-- Replace every occurrence of pat by rep in s (Python str.replace; an
empty pattern is never used by the source). -/
def strReplaceAll (pat rep s : String) : String :=
  match pat.toList with
  | [] => s
  | p :: ps => String.mk (replaceFromAux p ps rep.toList s.toList.length s.toList)

/-- The transmission label mapping of data_cleaner.py lines 98-101
(pandas Series.replace maps whole cell values, not substrings). -/
def transmissionVal (s : String) : String :=
  if s = "Automatic transmission" then "automatic"
  else if s = "Manual transmission" then "manual"
  else s

/-- The transmission row filter of data_cleaner.py line 103: keep iff the
mapped value is in {automatic, manual}. -/
def transmissionKeep (s : String) : Bool := s = "automatic" ∨ s = "manual"

/-- The fuel label mapping of data_cleaner.py lines 112-115; fuel has no
row filter. -/
def fuelVal (s : String) : String :=
  if s = "Essence" then "petrol"
  else if s = "Diesel" then "diesel"
  else s

/-- The mileage column transform of data_cleaner.py lines 122-123: strip
non-digits and numeric-parse. -/
def mileageVal (s : String) : Option Nat := toNumeric (stripNonDigits s)

/-- The mileage row filter of data_cleaner.py line 125: keep iff
mileage < 200000 (NaN mileages are dropped). -/
def mileageKeep (m : Option Nat) : Bool :=
  match m with
  | some v => v < 200000
  | none => false

/-- The brand transform of data_cleaner.py lines 134-139: replace
"Mercedes-Benz" by "mercedes", then lowercase; brand has no row filter. -/
def brandVal (s : String) : String := pyLower (strReplaceAll "Mercedes-Benz" "mercedes" s)

/-- Splitting a character list at a separator character, the groups in
order (the Python str.split semantics with every separator kept as a group
boundary). -/
def splitChar (sep : Char) : List Char → List (List Char)
  | [] => [[]]
  | c :: rest =>
    if c = sep then [] :: splitChar sep rest
    else
      match splitChar sep rest with
      | [] => [[c]]
      | g :: gs => (c :: g) :: gs

/-- Whitespace trim at both ends (Python str.strip / pandas .str.strip),
on character lists so that it evaluates by reduction. -/
def pyStrip (s : String) : String :=
  String.mk
    (((s.toList.dropWhile Char.isWhitespace).reverse.dropWhile Char.isWhitespace).reverse)

/-- Modeled from the external pandas library: pd.to_datetime(s,
dayfirst=True, errors coerced).dt.year on the date shapes the fetcher
emits ("YYYY", "MM/YYYY", "DD/MM/YYYY"); out-of-range timestamps (pandas
nanosecond range is years 1678..2262) and unparseable text coerce to NaT,
i.e. none. Used by data_cleaner.py lines 147-151. -/
def parseYear (s : String) : Option Nat :=
  match (splitChar '/' s.toList).map (fun cs => toNumeric (String.mk cs)) with
  | [some y] => if 1678 ≤ y ∧ y ≤ 2262 then some y else none
  | [some m, some y] =>
      if 1 ≤ m ∧ m ≤ 12 ∧ 1678 ≤ y ∧ y ≤ 2262 then some y else none
  | [some d, some m, some y] =>
      if 1 ≤ d ∧ d ≤ 31 ∧ 1 ≤ m ∧ m ≤ 12 ∧ 1678 ≤ y ∧ y ≤ 2262 then some y else none
  | _ => none

/-- The year row filter of data_cleaner.py line 154: keep iff the year
parsed (notna) and is at least 2010. -/
def yearKeep (y : Option Nat) : Bool :=
  match y with
  | some v => 2010 ≤ v
  | none => false

/-- First maximal digit run of a character list, or none when the text has
no digit. -/
def firstDigitRun : List Char → Option (List Char)
  | [] => none
  | c :: rest =>
    if c.isDigit then some (c :: rest.takeWhile (fun d => d.isDigit))
    else firstDigitRun rest

/-- Models the pandas .str.extract of a digit-run group followed by
numeric parse, used for the co2 column (data_cleaner.py lines 163-166) and
the warranty column (line 189). -/
def extractFirstDigits (s : String) : Option Nat :=
  (firstDigitRun s.toList).map parseDigitList

/-- Insertion of a value into a sorted list of naturals. -/
def insertSorted (a : Nat) : List Nat → List Nat
  | [] => [a]
  | b :: l => if a ≤ b then a :: b :: l else b :: insertSorted a l

/-- Insertion sort of naturals, used to model the sorting inside the pandas
median. -/
def sortNat (l : List Nat) : List Nat := l.foldr insertSorted []

/-- Half of an odd natural as a rational in lowest terms, built by its
normal form so that kernel evaluation works (the generic rational division
normalizes through a well-founded gcd that does not reduce). -/
def halfOdd (n : Nat) (h : n % 2 = 1) : ℚ :=
  ⟨(n : Int), 2, by omega, by
    rw [Int.natAbs_ofNat]
    exact Nat.coprime_two_right.mpr (Nat.odd_iff.mpr h)⟩

theorem halfOdd_eq (n : Nat) (h : n % 2 = 1) : halfOdd n h = (n : ℚ) / 2 := by
  rw [halfOdd]
  rw [Rat.mk'_eq_divInt, Rat.divInt_eq_div]
  norm_num

/-- Half of a natural number as a rational (the mean of the two middle
values of the pandas median), written so that it evaluates by reduction. -/
def halfQ (n : Nat) : ℚ :=
  if h : n % 2 = 0 then ((n / 2 : Nat) : ℚ) else halfOdd n (by omega)

theorem halfQ_eq (n : Nat) : halfQ n = (n : ℚ) / 2 := by
  rw [halfQ]
  by_cases h : n % 2 = 0
  · simp only [h, dif_pos]
    have h2 : (n : ℚ) = 2 * ((n / 2 : Nat) : ℚ) := by
      have := Nat.div_mul_cancel (Nat.dvd_of_mod_eq_zero h)
      exact_mod_cast (by omega : n = 2 * (n / 2))
    rw [h2]
    ring
  · simp only [h, dif_neg, not_false_iff]
    exact halfOdd_eq n (by omega)

/-- Models pandas Series.median over the non-missing values: middle element
of the sorted values for odd count, mean of the two middle elements for
even count (a rational). -/
def medianQ (l : List Nat) : ℚ :=
  let s := sortNat l
  if s.length % 2 = 1 then ((s.getD (s.length / 2) 0 : Nat) : ℚ)
  else halfQ (s.getD (s.length / 2 - 1) 0 + s.getD (s.length / 2) 0)

/-- The median defined above is the textbook form: middle sorted element
for an odd count, mean of the two middle sorted elements for an even
count. -/
theorem medianQ_eq (l : List Nat) :
    medianQ l =
      (if (sortNat l).length % 2 = 1 then
        (((sortNat l).getD ((sortNat l).length / 2) 0 : Nat) : ℚ)
      else
        ((((sortNat l).getD ((sortNat l).length / 2 - 1) 0 : Nat) : ℚ)
          + (((sortNat l).getD ((sortNat l).length / 2) 0 : Nat) : ℚ)) / 2) := by
  rw [medianQ]
  by_cases h : (sortNat l).length % 2 = 1
  · simp [h]
  · simp only [h, if_neg, not_false_iff]
    rw [halfQ_eq]
    push_cast
    ring

/-- The emission class transform of data_cleaner.py line 178: lowercase
then strip surrounding whitespace. -/
def emissionVal (s : String) : String := pyStrip (pyLower s)

/-- The emission class allow-list of data_cleaner.py lines 13-16. -/
def allowedEmissionClasses : List String :=
  ["euro 6", "euro 5", "euro 6d", "euro 6d-temp", "euro 6c", "euro 6e", "euro 6b"]

/-- The emission class row filter of data_cleaner.py line 180: keep iff the
transformed value is in the allow-list. -/
def emissionKeep (s : String) : Bool := s ∈ allowedEmissionClasses

/-- The brand_model transform of data_cleaner.py lines 201-207: lowercase,
replace "mercedes-benz" by "mercedes" (plain substring replace), strip;
brand_model has no row filter. -/
def brandModelVal (s : String) : String :=
  pyStrip (strReplaceAll "mercedes-benz" "mercedes" (pyLower s))

/-! ## The raw batch and the clean_data pipeline -/

/-- One raw scraped row after the drop/rename step of data_cleaner.py lines
47-64 (price_eur is already renamed to price, and so on); every cell is the
raw string, with a pandas NaN cell reading as the string "nan" after
astype(str). -/
structure RawRow where
  price : String
  transmission : String
  fuel : String
  mileage : String
  brand : String
  year : String
  co2 : String
  emission_class : String
  warranty : String
  brand_model : String
  model : String
deriving DecidableEq

/-- A raw batch: which columns are present in the CSV, plus the rows (a
cell of an absent column is never read). -/
structure Frame where
  hasPrice : Bool
  hasTransmission : Bool
  hasFuel : Bool
  hasMileage : Bool
  hasBrand : Bool
  hasYear : Bool
  hasCo2 : Bool
  hasEmission : Bool
  hasWarranty : Bool
  hasBrandModel : Bool
  rows : List RawRow
deriving DecidableEq

/-- The extracted co2 values of a batch at the co2 stage
(data_cleaner.py lines 163-166). -/
def co2NonMissing (batch : List RawRow) : List Nat :=
  (batch.map (fun r => extractFirstDigits r.co2)).filterMap id

/-- The fillna value of the co2 stage: the batch median of the non-missing
extracted values, or none when every value is missing (an all-NaN median is
NaN, so fillna leaves the cell missing). -/
def co2Median (batch : List RawRow) : Option ℚ :=
  if co2NonMissing batch = [] then none else some (medianQ (co2NonMissing batch))

/-- The co2 value of one row after extraction and median imputation
(data_cleaner.py line 167), relative to its batch. -/
def co2Imputed (batch : List RawRow) (r : RawRow) : Option ℚ :=
  match extractFirstDigits r.co2 with
  | some v => some ((v : Nat) : ℚ)
  | none => co2Median batch

/-- The co2 row filter value test of data_cleaner.py line 169: keep iff the
imputed co2 is at most 300 (a still-missing co2 compares false). -/
def co2KeepVal (v : Option ℚ) : Bool :=
  match v with
  | some q => q ≤ 300
  | none => false

/-- The whole co2 stage of data_cleaner.py lines 161-171 on the rows that
survived the earlier filters: impute with the median of the same batch,
then keep the rows whose imputed co2 is at most 300. The median is computed
over the batch before the filter removes any row. -/
def co2FilterStage (batch : List RawRow) : List RawRow :=
  batch.filter (fun r => co2KeepVal (co2Imputed batch r))

/-- Number of rows of the batch whose extracted warranty equals v
(the value_counts of data_cleaner.py line 190). -/
def warrantyCount (batch : List RawRow) (v : Nat) : Nat :=
  (batch.filterMap (fun r => extractFirstDigits r.warranty)).count v

/-- The warranty value of one row (data_cleaner.py lines 189-194): extract
the digit run; values occurring fewer than 2 times in the batch are coerced
to 12, and missing values become 12; warranty has no row filter. -/
def warrantyVal (batch : List RawRow) (r : RawRow) : Nat :=
  match extractFirstDigits r.warranty with
  | some v => if warrantyCount batch v < 2 then 12 else v
  | none => 12

/-- Per-batch cleaning statistics reported by clean_data on success
(data_cleaner.py lines 220-236). -/
structure CleanStats where
  original_records : Nat
  final_records : Nat
  price_filtered : Nat
  transmission_filtered : Nat
  mileage_filtered : Nat
  year_filtered : Nat
  co2_filtered : Nat
  emission_filtered : Nat
deriving DecidableEq

/-- The clean_data pipeline of data_cleaner.py lines 18-256 on one raw
batch. Faithful control flow:
the price stage always runs (a missing price column becomes an all-NaN
column through the df.get fallback, so the range filter then drops every
row); transmission, fuel, mileage, brand, co2, emission_class, warranty and
brand_model are guarded by column-presence checks that log a warning and
skip the stage; the year stage reads the column unguarded, so a missing
year column raises KeyError, caught by the surrounding try/except and
returned as an error result; finally the stats dict of lines 228-235 reads
the local counters transmission_filtered, mileage_filtered, co2_filtered
and emission_filtered, which were never bound when the matching stage was
skipped, raising NameError (also caught and returned as an error result).
Fuel, brand, warranty and brand_model bind no counter, so their absence
degrades gracefully. The returned rows are the surviving raw rows; the
cleaned cell values are given by the per-column functions above. -/
def clean_data (f : Frame) : Except String (CleanStats × List RawRow) :=
  let rows0 := f.rows
  let rows1 := rows0.filter (fun r =>
    priceKeep (if f.hasPrice then priceVal r.price else none))
  let price_filtered := rows0.length - rows1.length
  let step2 : List RawRow × Option Nat :=
    if f.hasTransmission then
      let kept := rows1.filter (fun r => transmissionKeep (transmissionVal r.transmission))
      (kept, some (rows1.length - kept.length))
    else (rows1, none)
  let rows2 := step2.1
  let step3 : List RawRow × Option Nat :=
    if f.hasMileage then
      let kept := rows2.filter (fun r => mileageKeep (mileageVal r.mileage))
      (kept, some (rows2.length - kept.length))
    else (rows2, none)
  let rows3 := step3.1
  if f.hasYear then
    let rows4 := rows3.filter (fun r => yearKeep (parseYear r.year))
    let year_filtered := rows3.length - rows4.length
    let step5 : List RawRow × Option Nat :=
      if f.hasCo2 then
        let kept := co2FilterStage rows4
        (kept, some (rows4.length - kept.length))
      else (rows4, none)
    let rows5 := step5.1
    let step6 : List RawRow × Option Nat :=
      if f.hasEmission then
        let kept := rows5.filter (fun r => emissionKeep (emissionVal r.emission_class))
        (kept, some (rows5.length - kept.length))
      else (rows5, none)
    let rows6 := step6.1
    match step2.2, step3.2, step5.2, step6.2 with
    | some tf, some mf, some cf, some ef =>
        Except.ok
          ({ original_records := rows0.length
           , final_records := rows6.length
           , price_filtered := price_filtered
           , transmission_filtered := tf
           , mileage_filtered := mf
           , year_filtered := year_filtered
           , co2_filtered := cf
           , emission_filtered := ef }, rows6)
    | none, _, _, _ => Except.error "NameError: transmission_filtered"
    | _, none, _, _ => Except.error "NameError: mileage_filtered"
    | _, _, none, _ => Except.error "NameError: co2_filtered"
    | _, _, _, none => Except.error "NameError: emission_filtered"
  else Except.error "KeyError: year"

/-- A frame whose CSV carries every handled column. -/
def fullFrame (rows : List RawRow) : Frame :=
  { hasPrice := true, hasTransmission := true, hasFuel := true, hasMileage := true
  , hasBrand := true, hasYear := true, hasCo2 := true, hasEmission := true
  , hasWarranty := true, hasBrandModel := true, rows := rows }

instance {ε α : Type} [DecidableEq ε] [DecidableEq α] : DecidableEq (Except ε α) :=
  fun x y =>
    match x, y with
    | .ok a, .ok b =>
        if h : a = b then isTrue (by rw [h]) else isFalse (fun hc => by cases hc; exact h rfl)
    | .error a, .error b =>
        if h : a = b then isTrue (by rw [h]) else isFalse (fun hc => by cases hc; exact h rfl)
    | .ok _, .error _ => isFalse (fun hc => by cases hc)
    | .error _, .ok _ => isFalse (fun hc => by cases hc)

/-! ## Serialization of a cleaned singleton batch (to_csv plus read_csv) -/

/-- Models the CSV round trip (df.to_csv then pd.read_csv then astype(str))
of the cleaned output for a singleton surviving batch: the price column is
float64 because clean_price returns a Python float, so its integral value
is written with a trailing ".0"; mileage, year, co2 and warranty are
integer dtypes in a fully parsed singleton batch and round-trip as plain
integer text; string columns round-trip unchanged. -/
def csvOfCleanedSingle (r : RawRow) : RawRow :=
  { price := String.mk (natStr ((priceVal r.price).getD 0) ++ ['.', '0'])
  , transmission := transmissionVal r.transmission
  , fuel := fuelVal r.fuel
  , mileage := String.mk (natStr ((mileageVal r.mileage).getD 0))
  , brand := brandVal r.brand
  , year := String.mk (natStr ((parseYear r.year).getD 0))
  , co2 := String.mk (natStr ((extractFirstDigits r.co2).getD 0))
  , emission_class := emissionVal r.emission_class
  , warranty := String.mk (natStr (warrantyVal [r] r))
  , brand_model := brandModelVal r.brand_model
  , model := r.model }

/-- A concrete raw row that survives every filter of clean_data. -/
def rowFix : RawRow :=
  { price := "29999", transmission := "Automatic transmission", fuel := "Essence"
  , mileage := "15000 km", brand := "BMW", year := "06/2021", co2 := "120 g/km"
  , emission_class := "Euro 6", warranty := "12 months"
  , brand_model := "BMW 320d", model := "320d" }

theorem isDigit_digitChar {d : Nat} (h : d < 10) : (digitChar d).isDigit = true := by
  interval_cases d <;> decide

theorem revDigits_all_digits (n : Nat) : ∀ c ∈ revDigits n, c.isDigit = true := by
  induction n using Nat.strong_induction_on with
  | _ n ih =>
    rw [revDigits_eq]
    intro c hc
    rcases List.mem_cons.mp hc with h | h
    · subst h; exact isDigit_digitChar (by omega)
    · by_cases hn : n < 10
      · simp [hn] at h
      · simp only [hn, if_neg, not_false_iff] at h
        exact ih (n / 10) (Nat.div_lt_self (by omega) (by omega)) c h

theorem natStr_all_digits (n : Nat) : ∀ c ∈ natStr n, c.isDigit = true := by
  intro c hc
  exact revDigits_all_digits n c (List.mem_reverse.mp hc)

theorem stripNonDigits_natStr_dot_zero (p : Nat) :
    stripNonDigits (String.mk (natStr p ++ ['.', '0'])) = String.mk (natStr p ++ ['0']) := by
  rw [stripNonDigits]
  have htl : (String.mk (natStr p ++ ['.', '0'])).toList = natStr p ++ ['.', '0'] := rfl
  rw [htl, List.filter_append]
  have h1 : (natStr p).filter (fun c => c.isDigit) = natStr p :=
    List.filter_eq_self.mpr (natStr_all_digits p)
  have h2 : (['.', '0'] : List Char).filter (fun c => c.isDigit) = ['0'] := rfl
  rw [h1, h2]

theorem toNumeric_natStr_append_zero (p : Nat) :
    toNumeric (String.mk (natStr p ++ ['0'])) = some (10 * p) := by
  rw [toNumeric]
  have htl : (String.mk (natStr p ++ ['0'])).toList = natStr p ++ ['0'] := rfl
  rw [htl]
  have hne : natStr p ++ ['0'] ≠ [] := by simp
  have hall : (natStr p ++ ['0']).all (fun c => c.isDigit) = true := by
    rw [List.all_eq_true]
    intro c hc
    rcases List.mem_append.mp hc with h | h
    · exact natStr_all_digits p c h
    · simp only [List.mem_singleton] at h; subst h; decide
  rw [if_pos ⟨hne, hall⟩]
  rw [parseDigitList_append_one, parse_natStr]
  rfl

/-- C3 counterexample: the concrete surviving row rowFix passes the first
clean_data run unchanged, but re-running clean_data on its serialized
cleaned output removes it: the cleaned price 29999 serializes as "29999.0",
whose digit strip re-parses as 299990, which fails the price range filter. -/
theorem normalizer_fixed_point_cex :
    (clean_data (fullFrame [rowFix])).map Prod.snd = Except.ok [rowFix]
    ∧ (clean_data (fullFrame [csvOfCleanedSingle rowFix])).map Prod.snd = Except.ok []
    ∧ (csvOfCleanedSingle rowFix).price = "29999.0"
    ∧ priceVal "29999.0" = some 299990
    ∧ priceKeep (priceVal "29999.0") = false := by
  refine ⟨by decide, by decide, by decide, by decide, by decide⟩

/-- C3 corrected: re-running the normalizer on its own serialized output is
not a fixed point. The cleaned price p of a surviving row serializes with a
trailing ".0", the second run's digit strip parses that as 10 * p, and the
second-run price filter keeps the row iff p is at most 15000; every
surviving row with price above 15000 is removed by the second run. -/
theorem normalizer_second_run_price (r : RawRow) (p : Nat)
    (h : priceVal r.price = some p) (h5 : 5000 ≤ p) :
    priceVal (csvOfCleanedSingle r).price = some (10 * p)
    ∧ (priceKeep (priceVal (csvOfCleanedSingle r).price) = true ↔ p ≤ 15000) := by
  have hp : (csvOfCleanedSingle r).price = String.mk (natStr p ++ ['.', '0']) := by
    rw [csvOfCleanedSingle, h]
    rfl
  have hval : priceVal (csvOfCleanedSingle r).price = some (10 * p) := by
    rw [hp, priceVal, stripNonDigits_natStr_dot_zero, toNumeric_natStr_append_zero]
    have h100 : ¬ (10 * p % 100 = 15) := by omega
    have h10 : ¬ (10 * p % 10 = 5) := by omega
    show clean_price (10 * p) = some (10 * p)
    rw [clean_price_eq]
    simp [h100, h10]
  refine ⟨hval, ?_⟩
  rw [hval]
  simp only [priceKeep, decide_eq_true_eq]
  omega

/-- Witness for the hypotheses of normalizer_second_run_price at the
concrete row rowFix with cleaned price 29999. -/
theorem normalizer_second_run_price_witness :
    priceVal (csvOfCleanedSingle rowFix).price = some 299990
    ∧ (priceKeep (priceVal (csvOfCleanedSingle rowFix).price) = true ↔ 29999 ≤ 15000) :=
  normalizer_second_run_price rowFix 29999 (by decide) (by decide)

/-- C4: evaluation of clean_data at batches each missing one handled
column. A missing transmission, mileage, co2 or emission_class column
reaches the stats dict with its filter counter unbound and fails with
NameError; a missing year column fails with KeyError at the unguarded
column access; missing fuel, brand, warranty or brand_model columns
degrade gracefully; a missing price column silently drops every row while
still reporting success. -/
theorem missing_column_eval :
    clean_data { fullFrame [rowFix] with hasTransmission := false }
      = Except.error "NameError: transmission_filtered"
    ∧ clean_data { fullFrame [rowFix] with hasMileage := false }
      = Except.error "NameError: mileage_filtered"
    ∧ clean_data { fullFrame [rowFix] with hasCo2 := false }
      = Except.error "NameError: co2_filtered"
    ∧ clean_data { fullFrame [rowFix] with hasEmission := false }
      = Except.error "NameError: emission_filtered"
    ∧ clean_data { fullFrame [rowFix] with hasYear := false }
      = Except.error "KeyError: year"
    ∧ (clean_data { fullFrame [rowFix] with hasFuel := false }).toOption.isSome = true
    ∧ (clean_data { fullFrame [rowFix] with hasBrand := false }).toOption.isSome = true
    ∧ (clean_data { fullFrame [rowFix] with hasWarranty := false }).toOption.isSome = true
    ∧ (clean_data { fullFrame [rowFix] with hasBrandModel := false }).toOption.isSome = true
    ∧ (clean_data { fullFrame [rowFix] with hasPrice := false }).map Prod.snd
      = Except.ok [] := by
  refine ⟨by decide, by decide, by decide, by decide, by decide,
    by decide, by decide, by decide, by decide, by decide⟩

/-- C6: a row of a batch whose co2 cell yields no numeric value after digit
extraction receives the median of the non-missing extracted co2 values of
the same batch, and the 300-bound filter tests that imputed value, the
median being computed over the batch before the filter removes any row. -/
theorem co2_median_imputation (batch : List RawRow) (r : RawRow)
    (hmem : r ∈ batch) (hmiss : extractFirstDigits r.co2 = none)
    (hnm : co2NonMissing batch ≠ []) :
    co2Imputed batch r = some (medianQ (co2NonMissing batch))
    ∧ (r ∈ co2FilterStage batch ↔ medianQ (co2NonMissing batch) ≤ 300) := by
  have h1 : co2Imputed batch r = some (medianQ (co2NonMissing batch)) := by
    simp only [co2Imputed, hmiss, co2Median, if_neg hnm]
  refine ⟨h1, ?_⟩
  rw [co2FilterStage, List.mem_filter]
  simp only [h1, co2KeepVal, decide_eq_true_eq]
  simp [hmem]

/-- A row with an unparseable co2 cell, used as C6 witness. -/
def co2RowMissing : RawRow := { rowFix with co2 := "nan" }

/-- A concrete three-row batch with one missing co2 value. -/
def co2Batch : List RawRow :=
  [co2RowMissing, { rowFix with co2 := "100" }, { rowFix with co2 := "200" }]

/-- Witness for the hypotheses of co2_median_imputation: in a batch with
extracted co2 values 100 and 200, the missing row is imputed with 150 and
survives the filter. -/
theorem co2_median_imputation_witness :
    co2Imputed co2Batch co2RowMissing = some (medianQ (co2NonMissing co2Batch))
    ∧ medianQ (co2NonMissing co2Batch) = 150
    ∧ co2RowMissing ∈ co2FilterStage co2Batch := by
  have h := co2_median_imputation co2Batch co2RowMissing (by decide) (by decide) (by decide)
  exact ⟨h.1, by decide, h.2.mpr (by decide)⟩

/-! ## Link discovery engine (link_scraper.py) -/

/-- URL canonicalization of link_scraper.py lines 150 and 253: the regex
that deletes the query string keeps everything before the first question
mark. -/
def stripQuery (s : String) : String :=
  String.mk (s.toList.takeWhile (fun c => c ≠ '?'))

/-- The startswith http check of link_scraper.py line 148. -/
def startsWithHttp (s : String) : Bool :=
  (['h', 't', 't', 'p'] : List Char).isPrefixOf s.toList

/-- load_existing_links of link_scraper.py lines 140-155: keep the http
lines of the file and canonicalize each (the Python set only deduplicates;
membership is unaffected, so a list models it). -/
def load_existing_links (file : List String) : List String :=
  (file.filter startsWithHttp).map stripQuery

/-- The per-page link classification loop of link_scraper.py lines 452-463,
carrying the 1-based enumerate index: indices at most 3 are skipped; a link
of the existing set not yet matched is appended to both matched_links and
all_new_links and the loop breaks; an unseen link outside the existing set
is appended to all_new_links. -/
def processPageAux (existing : List String) :
    Nat → List String → List String → List String → List String × List String
  | _, [], new, matched => (new, matched)
  | i, link :: rest, new, matched =>
    if i ≤ 3 then processPageAux existing (i + 1) rest new matched
    else if link ∈ existing then
      if link ∉ matched then (new ++ [link], matched ++ [link])
      else processPageAux existing (i + 1) rest new matched
    else if link ∉ new then processPageAux existing (i + 1) rest (new ++ [link]) matched
    else processPageAux existing (i + 1) rest new matched

/-- Processing of one page's links, starting at enumerate index 1. -/
def processPage (existing pageLinks new matched : List String) : List String × List String :=
  processPageAux existing 1 pageLinks new matched

/-- Result of one discovery run: the new links, the matched links, and how
many pages had their links processed. -/
structure DiscoveryResult where
  newLinks : List String
  matchedLinks : List String
  pagesProcessed : Nat
deriving DecidableEq

/-- The paging loop of get_latest_vehicle_links (link_scraper.py lines
383-493). The source of links is pure: pages p is the link list extracted
from page p (so the in-page retry of lines 429-444 re-extracts the same
links, and an empty page breaks the loop with the accumulated partial
results). The fuel counts the remaining admissible pages; the entry point
passes 200, the max_pages ceiling of line 373, so fuel running out is
exactly the while-condition current_page greater than max_pages. -/
def discoverLoop (pages : Nat → List String) (existing : List String) (target : Nat) :
    Nat → Nat → List String → List String → Nat → DiscoveryResult
  | 0, _, new, matched, processed => ⟨new, matched, processed⟩
  | fuel + 1, page, new, matched, processed =>
    if matched.length < target then
      if pages page = [] then ⟨new, matched, processed⟩
      else
        let st := processPage existing (pages page) new matched
        if target ≤ st.2.length then ⟨st.1, st.2, processed + 1⟩
        else discoverLoop pages existing target fuel (page + 1) st.1 st.2 (processed + 1)
    else ⟨new, matched, processed⟩

/-- get_latest_vehicle_links of link_scraper.py lines 360-512: page from 1,
classify links against the existing set, stop at target_matches matches or
the 200-page ceiling, and return the accumulated links. -/
def get_latest_vehicle_links (pages : Nat → List String) (existing : List String)
    (target : Nat) : DiscoveryResult :=
  discoverLoop pages existing target 200 1 [] [] 0

theorem processPageAux_matched_le (existing : List String) :
    ∀ links i new matched,
      (processPageAux existing i links new matched).2.length ≤ matched.length + 1 := by
  intro links
  induction links with
  | nil => intro i new matched; simp [processPageAux]
  | cons link rest ih =>
    intro i new matched
    rw [processPageAux]
    by_cases h3 : i ≤ 3
    · simp only [h3, if_pos]; exact ih _ _ _
    · simp only [h3, if_neg, not_false_iff]
      by_cases hex : link ∈ existing
      · simp only [hex, if_pos]
        by_cases hm : link ∈ matched
        · simp only [hm, not_true, if_neg, not_false_iff, ite_not]
          exact ih _ _ _
        · simp only [hm, not_false_iff, if_pos, ite_not]
          simp
      · simp only [hex, if_neg, not_false_iff]
        by_cases hn : link ∈ new
        · simp only [hn, not_true, ite_not, if_neg]
          exact ih _ _ _
        · simp only [hn, not_false_iff, if_pos, ite_not]
          exact ih _ _ _

theorem discoverLoop_spec (pages : Nat → List String) (existing : List String)
    (target : Nat) :
    ∀ fuel page new matched processed, matched.length ≤ target → page = processed + 1 →
      (discoverLoop pages existing target fuel page new matched processed).pagesProcessed
          ≤ processed + fuel
      ∧ (discoverLoop pages existing target fuel page new matched
          processed).matchedLinks.length ≤ target
      ∧ ((discoverLoop pages existing target fuel page new matched
            processed).matchedLinks.length = target
        ∨ (discoverLoop pages existing target fuel page new matched
            processed).pagesProcessed = processed + fuel
        ∨ pages ((discoverLoop pages existing target fuel page new matched
            processed).pagesProcessed + 1) = []) := by
  intro fuel
  induction fuel with
  | zero =>
    intro page new matched processed hm hp
    rw [discoverLoop]
    refine ⟨?_, hm, Or.inr (Or.inl rfl)⟩
    show processed ≤ processed + 0
    omega
  | succ fuel ih =>
    intro page new matched processed hm hp
    rw [discoverLoop]
    by_cases hlt : matched.length < target
    · simp only [hlt, if_pos]
      by_cases hempty : pages page = []
      · simp only [hempty, if_pos]
        exact ⟨by omega, hm, Or.inr (Or.inr (by rw [← hp]; exact hempty))⟩
      · simp only [hempty, if_neg, not_false_iff]
        have hb := processPageAux_matched_le existing (pages page) 1 new matched
        by_cases htar : target ≤ (processPage existing (pages page) new matched).2.length
        · simp only [htar, if_pos]
          have : (processPage existing (pages page) new matched).2.length = target := by
            rw [processPage] at *
            omega
          exact ⟨by omega, by omega, Or.inl this⟩
        · simp only [htar, if_neg, not_false_iff]
          have hm' : (processPage existing (pages page) new matched).2.length ≤ target := by
            omega
          have := ih (page + 1) (processPage existing (pages page) new matched).1
            (processPage existing (pages page) new matched).2 (processed + 1) hm' (by omega)
          refine ⟨by omega, this.2.1, ?_⟩
          rcases this.2.2 with h | h | h
          · exact Or.inl h
          · exact Or.inr (Or.inl (by omega))
          · exact Or.inr (Or.inr h)
    · simp only [hlt, if_neg, not_false_iff]
      refine ⟨?_, hm, Or.inl ?_⟩
      · show processed ≤ processed + (fuel + 1)
        omega
      · show matched.length = target
        omega

/-- C8: every discovery run processes at most the 200-page ceiling, never
accumulates more than target_matches matched links (it stops at the page
reaching the target), and in every exit case returns the accumulated links:
the run ends with the target reached, or the page ceiling consumed, or the
next page yielding no links (the empty-page early exit). -/
theorem discovery_termination (pages : Nat → List String) (existing : List String)
    (target : Nat) :
    (get_latest_vehicle_links pages existing target).pagesProcessed ≤ 200
    ∧ (get_latest_vehicle_links pages existing target).matchedLinks.length ≤ target
    ∧ ((get_latest_vehicle_links pages existing target).matchedLinks.length = target
      ∨ (get_latest_vehicle_links pages existing target).pagesProcessed = 200
      ∨ pages ((get_latest_vehicle_links pages existing target).pagesProcessed + 1) = []) := by
  have := discoverLoop_spec pages existing target 200 1 [] [] 0 (by simp) (by omega)
  rw [get_latest_vehicle_links]
  exact ⟨by omega, this.2.1, this.2.2⟩

/-- C10: on every processed page, the links at enumerate positions 1 to 3
are skipped before classification: processing a page equals classifying
only the links after the first three, and the outcome never depends on what
the first three links are. -/
theorem first_three_links_skipped (existing : List String) :
    (∀ l new matched, processPage existing l new matched
        = processPageAux existing 4 (l.drop 3) new matched)
    ∧ (∀ x y z x' y' z' rest new matched,
        processPage existing (x :: y :: z :: rest) new matched
          = processPage existing (x' :: y' :: z' :: rest) new matched) := by
  have hmain : ∀ l new matched, processPage existing l new matched
      = processPageAux existing 4 (l.drop 3) new matched := by
    intro l new matched
    rcases l with _ | ⟨a, _ | ⟨b, _ | ⟨c, rest⟩⟩⟩ <;>
      simp [processPage, processPageAux]
  refine ⟨hmain, ?_⟩
  intro x y z x' y' z' rest new matched
  rw [hmain, hmain]
  simp

/-! ## scrape_links and the persisted link files (link_scraper.py 526-610) -/

/-- The three persisted link files (link_scraper.py lines 23-25). -/
structure LinkFiles where
  mainFile : List String
  newFile : List String
  latestFile : List String
deriving DecidableEq

/-- Outcome of one scrape_links run: the files after the run and the
discovery output. -/
structure ScrapeOutcome where
  files : LinkFiles
  newLinks : List String
  matchedLinks : List String
deriving DecidableEq

/-- scrape_links of link_scraper.py lines 526-610: load the existing links
from the main file, run discovery with target_matches 1, save the new links
to the new-links file when nonempty, and replace both the main file and the
latest file with the first three new links when there are any (each file is
left untouched otherwise). -/
def scrape_links (pages : Nat → List String) (files : LinkFiles) : ScrapeOutcome :=
  let existing := load_existing_links files.mainFile
  let r := get_latest_vehicle_links pages existing 1
  let top := r.newLinks.take 3
  { files :=
      { mainFile := if top = [] then files.mainFile else top
      , newFile := if r.newLinks = [] then files.newFile else r.newLinks
      , latestFile := if top = [] then files.latestFile else top }
  , newLinks := r.newLinks
  , matchedLinks := r.matchedLinks }

/-- A concrete source for refuting C1: page 1 carries three skipped links,
three genuinely new links, and one previously stored link. -/
def pagesC1 : Nat → List String := fun p =>
  if p = 1 then
    ["http://x/offres/s1", "http://x/offres/s2", "http://x/offres/s3",
     "http://x/offres/n1", "http://x/offres/n2", "http://x/offres/n3",
     "http://x/offres/m"]
  else []

/-- Files before the C1 counterexample run: the main file stores one link. -/
def filesC1 : LinkFiles :=
  { mainFile := ["http://x/offres/m"], newFile := [], latestFile := [] }

/-- C1 counterexample: after the run, the previously stored identity is
gone from the main file (the file was replaced by the first three new
links), and the matched link was appended to new_links — the persisted set
is neither append-only nor extended only with unmatched identities. -/
theorem known_links_append_only_cex :
    "http://x/offres/m" ∈ filesC1.mainFile
    ∧ (scrape_links pagesC1 filesC1).files.mainFile
        = ["http://x/offres/n1", "http://x/offres/n2", "http://x/offres/n3"]
    ∧ "http://x/offres/m" ∉ (scrape_links pagesC1 filesC1).files.mainFile
    ∧ "http://x/offres/m" ∈ (scrape_links pagesC1 filesC1).matchedLinks
    ∧ "http://x/offres/m" ∈ (scrape_links pagesC1 filesC1).newLinks := by
  refine ⟨by decide, by decide, by decide, by decide, by decide⟩

/-- C1 corrected: at run end the main links file is not extended but
replaced: whenever discovery found any new links (which include the matched
link, appended there by the classification loop), the file becomes exactly
the first three entries of new_links, dropping every previously stored
identity not among them; with no new links the file is left unchanged. -/
theorem main_file_replacement (pages : Nat → List String) (files : LinkFiles) :
    ((scrape_links pages files).newLinks ≠ [] →
      (scrape_links pages files).files.mainFile
        = (scrape_links pages files).newLinks.take 3)
    ∧ ((scrape_links pages files).newLinks = [] →
      (scrape_links pages files).files.mainFile = files.mainFile) := by
  constructor
  · intro h
    have hne : ¬ ((get_latest_vehicle_links pages
        (load_existing_links files.mainFile) 1).newLinks.take 3 = []) := by
      rw [List.take_eq_nil_iff]
      rw [scrape_links] at h
      simpa using h
    simp [scrape_links, hne]
  · intro h
    rw [scrape_links] at h ⊢
    simp only at h
    simp [h]

/-- Witness for the hypotheses of main_file_replacement at the C1
counterexample input, where new links exist. -/
theorem main_file_replacement_witness :
    (scrape_links pagesC1 filesC1).files.mainFile
      = (scrape_links pagesC1 filesC1).newLinks.take 3 :=
  (main_file_replacement pagesC1 filesC1).1 (by decide)

/-! ## Idempotent discovery (claim C2) -/

theorem processPage_eq_drop3 (existing l new matched : List String) :
    processPage existing l new matched = processPageAux existing 4 (l.drop 3) new matched := by
  rcases l with _ | ⟨a, _ | ⟨b, _ | ⟨c, rest⟩⟩⟩ <;> simp [processPage, processPageAux]

theorem discoverLoop_one_step (pages : Nat → List String) (existing : List String)
    (target fuel page : Nat) (new matched : List String) (processed : Nat)
    (hcond : matched.length < target) (hne : pages page ≠ [])
    (hreach : target ≤ (processPage existing (pages page) new matched).2.length) :
    discoverLoop pages existing target (fuel + 1) page new matched processed
      = ⟨(processPage existing (pages page) new matched).1,
         (processPage existing (pages page) new matched).2, processed + 1⟩ := by
  rw [discoverLoop]
  simp [hcond, hne, hreach]

/-- C2 corrected: for a source whose pages are unchanged, a KnownLinkSet
containing every link of page 1, and a first page yielding more than three
links, a run with target_matches 1 returns matched_links of length exactly
one — the link at position 4 of page 1, the first classified one — found on
the first page; but new_links is exactly that matched link (the match is
appended to new_links by the classification loop), so new_links is neither
empty nor made only of links encountered before the first match. -/
theorem idempotent_discovery_amended (pages : Nat → List String)
    (existing : List String) (hall : ∀ l ∈ pages 1, l ∈ existing)
    (hlen : 3 < (pages 1).length) :
    get_latest_vehicle_links pages existing 1
      = ⟨[(pages 1).getD 3 ""], [(pages 1).getD 3 ""], 1⟩ := by
  have hex : ∃ a b c d rest, pages 1 = a :: b :: c :: d :: rest := by
    match hp : pages 1 with
    | [] => rw [hp] at hlen; simp at hlen
    | [a] => rw [hp] at hlen; simp at hlen
    | [a, b] => rw [hp] at hlen; simp at hlen
    | [a, b, c] => rw [hp] at hlen; simp at hlen
    | a :: b :: c :: d :: rest => exact ⟨a, b, c, d, rest, rfl⟩
  obtain ⟨a, b, c, d, rest, hL⟩ := hex
  have hd : d ∈ existing := hall d (by rw [hL]; simp)
  have hstep : processPage existing (pages 1) [] [] = ([d], [d]) := by
    rw [hL, processPage_eq_drop3]
    simp only [List.drop_succ_cons, List.drop_zero]
    rw [processPageAux]
    simp [hd]
  have h200 : get_latest_vehicle_links pages existing 1
      = discoverLoop pages existing 1 (199 + 1) 1 [] [] 0 := rfl
  rw [h200, discoverLoop_one_step pages existing 1 199 1 [] [] 0 (by simp)
    (by rw [hL]; simp) (by rw [hstep]; simp)]
  rw [hstep, hL]
  simp

/-- A concrete unchanged source: its single page yields four links, all of
which the C2 known set already contains. -/
def pagesW : Nat → List String := fun p =>
  if p = 1 then ["http://a/1", "http://a/2", "http://a/3", "http://a/4"] else []

/-- The C2 known-link set: every link the source returns. -/
def existingW : List String :=
  ["http://a/1", "http://a/2", "http://a/3", "http://a/4"]

/-- Witness for the hypotheses of idempotent_discovery_amended at the
concrete unchanged source pagesW with every link already known. -/
theorem idempotent_discovery_amended_witness :
    get_latest_vehicle_links pagesW existingW 1
      = ⟨[(pagesW 1).getD 3 ""], [(pagesW 1).getD 3 ""], 1⟩ :=
  idempotent_discovery_amended pagesW existingW (by decide) (by decide)

/-- C2 counterexample: on the concrete unchanged source with every link
known, the run does match exactly one link on page 1, but new_links is the
matched link itself — it is neither empty nor contained in the links
encountered before the first match (positions 1 to 3). -/
theorem idempotent_discovery_cex :
    (get_latest_vehicle_links pagesW existingW 1).matchedLinks = ["http://a/4"]
    ∧ (get_latest_vehicle_links pagesW existingW 1).pagesProcessed = 1
    ∧ ¬ ((get_latest_vehicle_links pagesW existingW 1).newLinks = []
        ∨ ∀ l ∈ (get_latest_vehicle_links pagesW existingW 1).newLinks,
            l ∈ (["http://a/1", "http://a/2", "http://a/3"] : List String)) := by
  refine ⟨by decide, by decide, by decide⟩

/-! ## Detail fetcher (data_scraper.py) -/

/-- Path component of an absolute URL: the text from the first slash after
the scheme separator up to the query string, modeling urlparse(url).path
for the http(s) listing URLs the scraper handles. -/
def afterSchemeAux : List Char → Option (List Char)
  | [] => none
  | ':' :: '/' :: '/' :: rest => some rest
  | _ :: rest => afterSchemeAux rest

/-- See afterSchemeAux: urlparse(url).path for the URLs the scraper sees. -/
def urlPath (url : String) : String :=
  match afterSchemeAux url.toList with
  | none => String.mk (url.toList.takeWhile (fun c => c ≠ '?'))
  | some rest =>
      String.mk ((rest.dropWhile (fun c => c ≠ '/')).takeWhile (fun c => c ≠ '?'))

/-- Substring containment on character lists (the Python in operator). -/
def containsSub (pat : List Char) : List Char → Bool
  | [] => pat.isPrefixOf []
  | c :: rest => pat.isPrefixOf (c :: rest) || containsSub pat rest

/-- The brand URL patterns of data_scraper.py lines 32-41, in insertion
order. -/
def brand_patterns : List (String × List String) :=
  [("mercedes-benz", ["mercedes-benz", "mercedes", "mercedesbenz"]),
   ("volkswagen", ["volkswagen", "vw", "volks"]),
   ("bmw", ["bmw"]),
   ("audi", ["audi"]),
   ("peugeot", ["peugeot"]),
   ("ford", ["ford"]),
   ("volvo", ["volvo"]),
   ("kia", ["kia"])]

/-- extract_brand_from_url of data_scraper.py lines 118-131: lowercase the
URL path and return the first brand one of whose patterns occurs as
"/pattern-" in the path, else none. -/
def extract_brand_from_url (url : String) : Option String :=
  let path := (pyLower (urlPath url)).toList
  brand_patterns.findSome? (fun bp =>
    if bp.2.any (fun pat => containsSub ('/' :: (pat.toList ++ ['-'])) path) then some bp.1
    else none)

/-- The retry loop of scrape_vehicle_data (data_scraper.py lines 222-358),
driven by the status code each attempt receives: 429 retries (after the
backoff sleep) while attempt is below max_attempts and then gives up; 403
gives up immediately; any other error status raises and is given up on;
otherwise the fetch succeeds. Returns the outcome together with the number
of requests issued. The fuel equals the remaining attempts allowed and
never runs out when called with max_attempts. -/
def scrapeAttempts (resp : Nat → Nat) : Nat → Nat → Nat → Option Unit × Nat
  | 0, _, _ => (none, 0)
  | fuel + 1, attempt, maxAttempts =>
    let code := resp attempt
    if code = 429 then
      if attempt < maxAttempts then
        let r := scrapeAttempts resp fuel (attempt + 1) maxAttempts
        (r.1, r.2 + 1)
      else (none, 1)
    else if code = 403 then (none, 1)
    else if 400 ≤ code then (none, 1)
    else (some (), 1)

/-- scrape_vehicle_data of data_scraper.py lines 215-358 at the level of
its fetch/retry contract: the brand pre-filter answers none without any
request; otherwise up to 3 attempts are made under the retry policy (the
extracted record content is outside the scope of this claim, so a success
is the unit value). -/
def scrape_vehicle_data (resp : Nat → Nat) (url : String) : Option Unit × Nat :=
  match extract_brand_from_url url with
  | none => (none, 0)
  | some _ => scrapeAttempts resp 3 1 3

/-- C7: when the URL passes the brand pre-filter, a call receiving HTTP 429
on all attempts returns none after exactly its 3 attempts, and a call
receiving HTTP 403 on the first attempt returns none after that single
request. -/
theorem fetch_retry_exhaustion (url : String)
    (hb : (extract_brand_from_url url).isSome = true) :
    (∀ resp : Nat → Nat, (∀ a, resp a = 429) →
      scrape_vehicle_data resp url = (none, 3))
    ∧ (∀ resp : Nat → Nat, resp 1 = 403 →
      scrape_vehicle_data resp url = (none, 1)) := by
  obtain ⟨brand, hbrand⟩ := Option.isSome_iff_exists.mp hb
  constructor
  · intro resp hresp
    rw [scrape_vehicle_data, hbrand]
    rw [scrapeAttempts]
    simp only [hresp 1]
    rw [scrapeAttempts]
    simp only [hresp 2]
    rw [scrapeAttempts]
    simp only [hresp 3]
    norm_num
  · intro resp hresp
    rw [scrape_vehicle_data, hbrand]
    rw [scrapeAttempts]
    simp only [hresp]
    norm_num

/-- A listing URL of an allow-listed brand, passing the brand pre-filter. -/
def urlBMW : String := "https://www.autoscout24.be/fr/offres/bmw-320d-abcdef"

/-- Witness for the hypotheses of fetch_retry_exhaustion at a concrete BMW
listing URL, with an always-429 source and a 403-on-first-attempt source. -/
theorem fetch_retry_exhaustion_witness :
    scrape_vehicle_data (fun _ => 429) urlBMW = (none, 3)
    ∧ scrape_vehicle_data (fun _ => 403) urlBMW = (none, 1) :=
  ⟨(fetch_retry_exhaustion urlBMW (by decide)).1 _ (fun _ => rfl),
   (fetch_retry_exhaustion urlBMW (by decide)).2 _ rfl⟩

/-! ## Pipeline orchestrator (pipeline.py) -/

/-- The data-scraping stage statistics, at the level the orchestrator
reads: the stats dict is consulted only for its output_file entry, which is
absent (none) when the fetch stage produced no output file. -/
structure DataStageStats where
  output_file : Option String
deriving DecidableEq

/-- The cleaning-stage statistics, as consulted by the orchestrator: only
the output_file entry decides whether the store update runs. -/
structure CleanStageStats where
  output_file : Option String
deriving DecidableEq

/-- The run summary produced by one orchestrator invocation. -/
structure PipelineRun where
  status : String
  data_cleaning : Option CleanStageStats
  mongodb_update_invoked : Bool
  stats_saved : Bool
deriving DecidableEq

/-- run_full_pipeline of pipeline.py lines 27-79 on the happy path, with
the stage results supplied as inputs (the stages themselves do network and
store work outside this embedding): the cleaning stage runs only when the
data-scraping stats carry an output_file, the store update runs only when
the cleaning stats carry one, the summary then finalizes with status
completed and is saved to the store. -/
def run_full_pipeline (dataStats : DataStageStats)
    (cleanFn : String → CleanStageStats) : PipelineRun :=
  let cleanStep : Option CleanStageStats := dataStats.output_file.map cleanFn
  let mongoStep : Bool :=
    match cleanStep with
    | some cs => cs.output_file.isSome
    | none => false
  { status := "completed"
  , data_cleaning := cleanStep
  , mongodb_update_invoked := mongoStep
  , stats_saved := true }

/-- C9: when the fetch stage produced no output file, the cleaning stage
and the store update are not invoked, and the run summary still finalizes
with status completed and is persisted to the store. -/
theorem skip_stages_on_missing_fetch_output (dataStats : DataStageStats)
    (cleanFn : String → CleanStageStats) (h : dataStats.output_file = none) :
    (run_full_pipeline dataStats cleanFn).data_cleaning = none
    ∧ (run_full_pipeline dataStats cleanFn).mongodb_update_invoked = false
    ∧ (run_full_pipeline dataStats cleanFn).status = "completed"
    ∧ (run_full_pipeline dataStats cleanFn).stats_saved = true := by
  simp [run_full_pipeline, h]

/-- Witness for the hypothesis of skip_stages_on_missing_fetch_output at
the concrete no-output fetch result. -/
theorem skip_stages_on_missing_fetch_output_witness :
    (run_full_pipeline ⟨none⟩ (fun _ => ⟨none⟩)).data_cleaning = none
    ∧ (run_full_pipeline ⟨none⟩ (fun _ => ⟨none⟩)).mongodb_update_invoked = false
    ∧ (run_full_pipeline ⟨none⟩ (fun _ => ⟨none⟩)).status = "completed"
    ∧ (run_full_pipeline ⟨none⟩ (fun _ => ⟨none⟩)).stats_saved = true :=
  skip_stages_on_missing_fetch_output ⟨none⟩ (fun _ => ⟨none⟩) rfl

end AutoScout
